import Mathlib

/-!
Shallow embedding of the Forward Contract Ledger Service
(`backend/blockchain.py`, class `BlockchainService`) together with the
status-report endpoint of `backend/app.py`, and theorems settling the
specification claims about it.

External effects (the web3 RPC connection, key handling, signing, the
deployed ledger program) are modelled as oracles packaged in a `World`
snapshot: each RPC primitive the source invokes is a field (or a function
field) of `World`, and each service operation returns, next to its
`Except` result, the list of ledger I/O operations it performed, in order.
Python integers are unbounded, so ledger integers are `Nat`; Python
exceptions become `Except` values; the single generic
`Exception(f"...{str(e)}")` re-raise of the source becomes the
`ServiceError.wrapped` constructor carrying exactly the formatted string.
-/

set_option autoImplicit false

namespace Blockchain

/-- The four status strings produced by `BlockchainService._get_contract_status`. -/
inductive ContractStatus where
  | PENDING
  | WAITING_FOR_BUYER
  | SIGNED_BY_BOTH
  | SETTLED
  deriving DecidableEq, Repr

/-- `BlockchainService._get_contract_status(farmer_signed, buyer_signed, settled)`
(blockchain.py lines 263-272): an if/elif/elif/else chain, first match wins. -/
def getContractStatus (farmer_signed buyer_signed settled : Bool) : ContractStatus :=
  if settled then ContractStatus.SETTLED
  else if farmer_signed && buyer_signed then ContractStatus.SIGNED_BY_BOTH
  else if farmer_signed then ContractStatus.WAITING_FOR_BUYER
  else ContractStatus.PENDING

/-- The environment-derived configuration of the service together with the
behaviour of the external checks done on it: `contractAddress` and
`privateKey` are the two env strings read in `__init__`; `isAddressOk` is
the value of `w3.is_address(contract_address)` and `connected` the value of
`w3.is_connected()` at the time of the call. -/
structure ServiceConfig where
  contractAddress : String
  privateKey : String
  isAddressOk : Bool
  connected : Bool
  deriving DecidableEq, Repr

/-- The bound contract object: `self.contract` is set in `__init__`
(blockchain.py lines 114-120) to a contract handle when
`self.contract_address and self.w3.is_address(self.contract_address)`
holds, else to `None`. -/
def contractHandle (cfg : ServiceConfig) : Option String :=
  if cfg.contractAddress ≠ "" && cfg.isAddressOk then some cfg.contractAddress else none

/-- `BlockchainService.is_configured` (blockchain.py lines 122-129):
`contract_address and private_key and contract is not None and w3.is_connected()`,
read as a boolean (the call sites only test its truthiness). -/
def is_configured (cfg : ServiceConfig) : Bool :=
  (cfg.contractAddress ≠ "" : Bool) &&
  (cfg.privateKey ≠ "" : Bool) &&
  (contractHandle cfg).isSome &&
  cfg.connected

/-- A failure raised by one of the external primitives the source calls
inside its `try` blocks, tagged by which of the spec's error kinds it is.
The source only ever observes `str(e)`, modelled by `LedgerFailure.message`. -/
inductive LedgerFailure where
  | unreachable (msg : String)
  | submissionFailed (msg : String)
  | confirmationTimeout (msg : String)
  | ledgerRevert (msg : String)
  | notFound (msg : String)
  deriving DecidableEq, Repr

/-- `str(e)` on a caught exception: the message carried by the failure. -/
def LedgerFailure.message : LedgerFailure → String
  | LedgerFailure.unreachable m => m
  | LedgerFailure.submissionFailed m => m
  | LedgerFailure.confirmationTimeout m => m
  | LedgerFailure.ledgerRevert m => m
  | LedgerFailure.notFound m => m

/-- An error raised by the service to its caller: either one of the explicit
`raise Exception("Blockchain service not configured...")` statements guarding
each operation, or the generic re-raise `raise Exception(f"Error ...: {str(e)}")`
at the end of a `try` block, carrying exactly the formatted string. -/
inductive ServiceError where
  | notConfigured (msg : String)
  | wrapped (msg : String)
  deriving DecidableEq, Repr

/-- The encoded entry-point call data built by
`self.contract.functions.<entryPoint>(args)` — exactly the arguments the
source passes to the binding (blockchain.py lines 153-157 and 203-204). -/
inductive CallData where
  | createContract (commodity : String) (quantity pricePerUnit deliveryDate : Nat)
  | signAsBuyer (contractId : Nat)
  deriving DecidableEq, Repr

/-- The unsigned transaction assembled by `build_transaction` (blockchain.py
lines 158-163 and 205-210): entry-point call data plus the explicit fields
`from`, `nonce`, `gas`, `gasPrice`. -/
structure UnsignedTx where
  fromAddr : String
  nonce : Nat
  gas : Nat
  gasPrice : Nat
  data : CallData
  deriving DecidableEq, Repr

/-- A mined-transaction receipt as consumed by the source: block number, gas
used, and the `contractId` arguments of the `ContractCreated` events that
`self.contract.events.ContractCreated().process_receipt(receipt)` decodes
from its logs, in log order. -/
structure Receipt where
  blockNumber : Nat
  gasUsed : Nat
  contractCreatedEvents : List Nat
  deriving DecidableEq, Repr

/-- The raw contract tuple returned by the ledger program's `getContract`
entry point, per the ABI declared in `__init__` (blockchain.py lines 38-63). -/
structure LedgerTuple where
  id : Nat
  farmer : String
  buyer : String
  commodity : String
  quantity : Nat
  pricePerUnit : Nat
  deliveryDate : Nat
  farmerSigned : Bool
  buyerSigned : Bool
  settled : Bool
  createdAt : Nat
  deriving DecidableEq, Repr

/-- The all-zero sentinel tuple a ledger program returns for an unknown id. -/
def sentinelTuple : LedgerTuple :=
  { id := 0, farmer := "0x0000000000000000000000000000000000000000",
    buyer := "0x0000000000000000000000000000000000000000", commodity := "",
    quantity := 0, pricePerUnit := 0, deliveryDate := 0, farmerSigned := false,
    buyerSigned := false, settled := false, createdAt := 0 }

/-- One ledger I/O operation performed through the RPC connection. Each
service operation below reports the exact ordered list it performed, so
"fails before attempting ledger I/O" is "returns an empty list". -/
inductive LedgerOp where
  | getNonce
  | getGasPrice
  | sendRaw
  | waitReceipt
  | callGetContract (contractId : Nat)
  | callGetTotal
  deriving DecidableEq, Repr

/-- A snapshot of everything outside the service at the moment of one call:
the signing account derived from the private key, the node's view of the
account's transaction counts, the gas price, the deterministic signer, and
the ledger program's responses. Function-valued fields are oracles for
primitives whose answer depends on the request.

`confirmedTxCount` is the number of the account's transactions already
included in mined blocks; `pendingTxCount` is the number additionally
sitting in the node's pending pool. `keyFailure`, `nonceFailure` and
`gasPriceFailure` make the corresponding primitive raise instead of answer. -/
structure World where
  accountAddress : String
  confirmedTxCount : Nat
  pendingTxCount : Nat
  gasPrice : Nat
  keyFailure : Option LedgerFailure
  nonceFailure : Option LedgerFailure
  gasPriceFailure : Option LedgerFailure
  signRawOf : UnsignedTx → String
  sendResultOf : String → Except LedgerFailure String
  receiptOf : String → Except LedgerFailure Receipt
  callResult : Nat → Except LedgerFailure LedgerTuple
  totalResult : Except LedgerFailure Nat
  fmtDate : Nat → String
  fmtDateTime : Nat → String

/-- `w3.eth.get_transaction_count(account.address)` as the source calls it
(blockchain.py lines 151 and 201): no block identifier is passed, so web3
uses the default `"latest"` — the count of the account's transactions in
mined blocks only. -/
def get_transaction_count_latest (w : World) : Except LedgerFailure Nat :=
  match w.nonceFailure with
  | some f => Except.error f
  | none => Except.ok w.confirmedTxCount

/-- `w3.eth.get_transaction_count(account.address, "pending")`: confirmed
plus pending transactions. The source never issues this form; it is defined
only to state what "reflecting pending transactions" would return. -/
def get_transaction_count_pending (w : World) : Except LedgerFailure Nat :=
  match w.nonceFailure with
  | some f => Except.error f
  | none => Except.ok (w.confirmedTxCount + w.pendingTxCount)

/-- The dictionary returned by a successful `create_contract`
(blockchain.py lines 173-179). -/
structure CreateResult where
  success : Bool
  transaction_hash : String
  contract_id : Option Nat
  block_number : Nat
  gas_used : Nat
  deriving DecidableEq, Repr

/-- The dictionary returned by a successful `sign_contract`
(blockchain.py lines 217-222). -/
structure SignResult where
  success : Bool
  transaction_hash : String
  block_number : Nat
  gas_used : Nat
  deriving DecidableEq, Repr

/-- The dictionary returned by a successful `get_contract_details`
(blockchain.py lines 243-258). -/
structure ContractView where
  contract_id : Nat
  farmer_address : String
  buyer_address : String
  commodity : String
  quantity : Nat
  price_per_unit : Nat
  delivery_date : String
  delivery_date_timestamp : Nat
  farmer_signed : Bool
  buyer_signed : Bool
  settled : Bool
  created_at : String
  total_value : Nat
  status : ContractStatus
  deriving DecidableEq, Repr

/-- `BlockchainService.create_contract` (blockchain.py lines 131-182).
Returns the result (or the raised error) together with the ordered list of
ledger I/O operations performed. The guard raises before the `try` block;
inside it, every caught failure is re-raised as
`Exception(f"Error creating contract: {str(e)}")`. The `farmer_address`
parameter is received (line 131) but never used in the body. -/
def create_contract (cfg : ServiceConfig) (w : World) (commodity : String)
    (quantity price_per_unit delivery_date_timestamp : Nat)
    (farmer_address : String) :
    Except ServiceError CreateResult × List LedgerOp :=
  if !is_configured cfg then
    (Except.error (ServiceError.notConfigured
      "Blockchain service not configured. Please set CONTRACT_ADDRESS and PRIVATE_KEY in .env"), [])
  else
    match w.keyFailure with
    | some f =>
        (Except.error (ServiceError.wrapped ("Error creating contract: " ++ f.message)), [])
    | none =>
      match get_transaction_count_latest w with
      | Except.error f =>
          (Except.error (ServiceError.wrapped ("Error creating contract: " ++ f.message)),
           [LedgerOp.getNonce])
      | Except.ok nonce =>
        match w.gasPriceFailure with
        | some f =>
            (Except.error (ServiceError.wrapped ("Error creating contract: " ++ f.message)),
             [LedgerOp.getNonce, LedgerOp.getGasPrice])
        | none =>
          let transaction : UnsignedTx :=
            { fromAddr := w.accountAddress, nonce := nonce, gas := 500000,
              gasPrice := w.gasPrice,
              data := CallData.createContract commodity quantity price_per_unit
                        delivery_date_timestamp }
          let signed_txn := w.signRawOf transaction
          match w.sendResultOf signed_txn with
          | Except.error f =>
              (Except.error (ServiceError.wrapped ("Error creating contract: " ++ f.message)),
               [LedgerOp.getNonce, LedgerOp.getGasPrice, LedgerOp.sendRaw])
          | Except.ok tx_hash =>
            match w.receiptOf tx_hash with
            | Except.error f =>
                (Except.error (ServiceError.wrapped ("Error creating contract: " ++ f.message)),
                 [LedgerOp.getNonce, LedgerOp.getGasPrice, LedgerOp.sendRaw,
                  LedgerOp.waitReceipt])
            | Except.ok receipt =>
              let contract_id := receipt.contractCreatedEvents.head?
              (Except.ok
                { success := true, transaction_hash := tx_hash,
                  contract_id := contract_id, block_number := receipt.blockNumber,
                  gas_used := receipt.gasUsed },
               [LedgerOp.getNonce, LedgerOp.getGasPrice, LedgerOp.sendRaw,
                LedgerOp.waitReceipt])

/-- `BlockchainService.sign_contract` (blockchain.py lines 184-225). Same
pipeline as `create_contract` against the `signAsBuyer` entry point with a
gas ceiling of 300000; no event decoding. The `buyer_address` parameter is
received (line 184) but never used in the body. -/
def sign_contract (cfg : ServiceConfig) (w : World) (contract_id : Nat)
    (buyer_address : String) :
    Except ServiceError SignResult × List LedgerOp :=
  if !is_configured cfg then
    (Except.error (ServiceError.notConfigured "Blockchain service not configured"), [])
  else
    match w.keyFailure with
    | some f =>
        (Except.error (ServiceError.wrapped ("Error signing contract: " ++ f.message)), [])
    | none =>
      match get_transaction_count_latest w with
      | Except.error f =>
          (Except.error (ServiceError.wrapped ("Error signing contract: " ++ f.message)),
           [LedgerOp.getNonce])
      | Except.ok nonce =>
        match w.gasPriceFailure with
        | some f =>
            (Except.error (ServiceError.wrapped ("Error signing contract: " ++ f.message)),
             [LedgerOp.getNonce, LedgerOp.getGasPrice])
        | none =>
          let transaction : UnsignedTx :=
            { fromAddr := w.accountAddress, nonce := nonce, gas := 300000,
              gasPrice := w.gasPrice,
              data := CallData.signAsBuyer contract_id }
          let signed_txn := w.signRawOf transaction
          match w.sendResultOf signed_txn with
          | Except.error f =>
              (Except.error (ServiceError.wrapped ("Error signing contract: " ++ f.message)),
               [LedgerOp.getNonce, LedgerOp.getGasPrice, LedgerOp.sendRaw])
          | Except.ok tx_hash =>
            match w.receiptOf tx_hash with
            | Except.error f =>
                (Except.error (ServiceError.wrapped ("Error signing contract: " ++ f.message)),
                 [LedgerOp.getNonce, LedgerOp.getGasPrice, LedgerOp.sendRaw,
                  LedgerOp.waitReceipt])
            | Except.ok receipt =>
              (Except.ok
                { success := true, transaction_hash := tx_hash,
                  block_number := receipt.blockNumber, gas_used := receipt.gasUsed },
               [LedgerOp.getNonce, LedgerOp.getGasPrice, LedgerOp.sendRaw,
                LedgerOp.waitReceipt])

/-- The view `get_contract_details` assembles from a contract tuple
(blockchain.py lines 243-258). `total_value` is computed as
`contract_data[4] * contract_data[5]` in Python's unbounded integers;
the two strftime calls are the world's date-formatting oracles. -/
def viewOfTuple (w : World) (t : LedgerTuple) : ContractView :=
  { contract_id := t.id, farmer_address := t.farmer, buyer_address := t.buyer,
    commodity := t.commodity, quantity := t.quantity,
    price_per_unit := t.pricePerUnit, delivery_date := w.fmtDate t.deliveryDate,
    delivery_date_timestamp := t.deliveryDate, farmer_signed := t.farmerSigned,
    buyer_signed := t.buyerSigned, settled := t.settled,
    created_at := w.fmtDateTime t.createdAt,
    total_value := t.quantity * t.pricePerUnit,
    status := getContractStatus t.farmerSigned t.buyerSigned t.settled }

/-- `BlockchainService.get_contract_details` (blockchain.py lines 227-261):
gate, then one read-only `getContract(contract_id)` call, then the view is
assembled from whatever tuple came back; any caught failure is re-raised as
`Exception(f"Error fetching contract details: {str(e)}")`. -/
def get_contract_details (cfg : ServiceConfig) (w : World) (contract_id : Nat) :
    Except ServiceError ContractView × List LedgerOp :=
  if !is_configured cfg then
    (Except.error (ServiceError.notConfigured "Blockchain service not configured"), [])
  else
    match w.callResult contract_id with
    | Except.error f =>
        (Except.error (ServiceError.wrapped ("Error fetching contract details: " ++ f.message)),
         [LedgerOp.callGetContract contract_id])
    | Except.ok contract_data =>
        (Except.ok (viewOfTuple w contract_data), [LedgerOp.callGetContract contract_id])

/-- `BlockchainService.get_total_contracts` (blockchain.py lines 274-282):
returns 0 when unconfigured, otherwise the `getTotalContracts()` call's
value, with a bare `except:` turning any failure into 0. It never raises. -/
def get_total_contracts (cfg : ServiceConfig) (w : World) : Nat × List LedgerOp :=
  if !is_configured cfg then (0, [])
  else
    match w.totalResult with
    | Except.error _ => (0, [LedgerOp.callGetTotal])
    | Except.ok n => (n, [LedgerOp.callGetTotal])

/-- The part of the `/blockchain/status` response of `backend/app.py`
(lines 140-155) that the claims mention: the endpoint never raises on an
unconfigured service; it reports `configured` from `is_configured()` and a
total of 0 when unconfigured (`get_total_contracts() if is_configured else 0`). -/
structure StatusReport where
  success : Bool
  configured : Bool
  connected : Bool
  total_contracts : Nat
  deriving DecidableEq, Repr

/-- `blockchain_status` endpoint body (app.py lines 140-155), restricted to
the fields above. -/
def blockchain_status (cfg : ServiceConfig) (w : World) : StatusReport × List LedgerOp :=
  let conf := is_configured cfg
  let total := if conf then get_total_contracts cfg w else (0, [])
  ({ success := true, configured := conf, connected := cfg.connected,
     total_contracts := total.fst }, total.snd)

/-! ### Concrete fixtures used by witnesses and counterexamples -/

/-- A fully configured service: both env strings set, address syntactically
valid, node reachable. -/
def cfgOk : ServiceConfig :=
  { contractAddress := "0xCf7Ed3AccA5a467e9e704C703E8D87F634fB0Fc9",
    privateKey := "0x59c6995e998f97a5a0044966f0945389dc9e86dae88c7a8412f4603b6b78690d",
    isAddressOk := true, connected := true }

/-- The out-of-the-box unconfigured service: empty address and key. -/
def cfgBad : ServiceConfig :=
  { contractAddress := "", privateKey := "", isAddressOk := false, connected := true }

/-- A receipt whose logs decode to one `ContractCreated` event with id 1. -/
def okReceipt : Receipt :=
  { blockNumber := 7, gasUsed := 21000, contractCreatedEvents := [1] }

/-- A healthy world: account at nonce 5 with nothing pending, every
primitive answers. The signer oracle records the nonce in the raw bytes and
the node echoes the raw bytes back as the hash, so the on-wire nonce is
observable through the returned `transaction_hash`. -/
def baseWorld : World :=
  { accountAddress := "0xf39Fd6e51aad88F6F4ce6aB8827279cffFb92266",
    confirmedTxCount := 5, pendingTxCount := 0, gasPrice := 30000000000,
    keyFailure := none, nonceFailure := none, gasPriceFailure := none,
    signRawOf := fun tx => toString tx.nonce,
    sendResultOf := fun raw => Except.ok raw,
    receiptOf := fun _ => Except.ok okReceipt,
    callResult := fun _ => Except.ok sentinelTuple,
    totalResult := Except.ok 0,
    fmtDate := fun n => toString n,
    fmtDateTime := fun n => toString n }

/-- A world whose ledger read returns the all-zero sentinel tuple for every id. -/
def wSentinel : World := baseWorld

/-- A tuple with `quantity` and `pricePerUnit` both 10^9. -/
def bigTuple : LedgerTuple :=
  { id := 1, farmer := "0xF", buyer := "0xB", commodity := "Soybean",
    quantity := 1000000000, pricePerUnit := 1000000000, deliveryDate := 1748736000,
    farmerSigned := true, buyerSigned := false, settled := false,
    createdAt := 1700000000 }

/-- A world whose ledger read returns `bigTuple` for every id. -/
def wBig : World := { baseWorld with callResult := fun _ => Except.ok bigTuple }

/-- The unsigned transaction `create_contract` assembles on the success
path (blockchain.py lines 153-163): nonce from the `"latest"` transaction
count, gas ceiling 500000, current gas price, create call data. -/
def createTx (w : World) (commodity : String)
    (quantity price_per_unit delivery_date_timestamp : Nat) : UnsignedTx :=
  { fromAddr := w.accountAddress, nonce := w.confirmedTxCount, gas := 500000,
    gasPrice := w.gasPrice,
    data := CallData.createContract commodity quantity price_per_unit
              delivery_date_timestamp }

/-- A receipt whose logs decode to no `ContractCreated` event. -/
def emptyReceipt : Receipt :=
  { blockNumber := 7, gasUsed := 21000, contractCreatedEvents := [] }

/-- A healthy world whose mined receipt carries no `ContractCreated` event. -/
def wNoEvents : World := { baseWorld with receiptOf := fun _ => Except.ok emptyReceipt }

/-- A world where waiting for the receipt fails with a ledger revert. -/
def wReceiptRevert : World :=
  { baseWorld with
    receiptOf := fun _ => Except.error (LedgerFailure.ledgerRevert "execution reverted") }

/-- A world where waiting for the receipt fails with a confirmation timeout
carrying the same message text as `wReceiptRevert`'s revert. -/
def wReceiptTimeout : World :=
  { baseWorld with
    receiptOf := fun _ =>
      Except.error (LedgerFailure.confirmationTimeout "execution reverted") }

/-- A world where the read-only `getContract` call reverts. -/
def wCallRevert : World :=
  { baseWorld with
    callResult := fun _ => Except.error (LedgerFailure.ledgerRevert "execution reverted") }

/-- `baseWorld` an instant after a first mutating call has submitted its
transaction: that transaction sits in the pending pool (`pendingTxCount = 1`)
but is not yet mined, so the confirmed count is unchanged. -/
def wSecond : World := { baseWorld with pendingTxCount := 1 }

end Blockchain

namespace Blockchain

/-- C1: for every triple of booleans, `_get_contract_status` returns exactly
one of the four statuses by the precedence chain settled → SETTLED, else
both signed → SIGNED_BY_BOTH, else farmerSigned → WAITING_FOR_BUYER, else
PENDING; all 8 combinations yield a defined result (the function is total
by construction). -/
theorem getContractStatus_precedence :
    ∀ f b s : Bool,
      (getContractStatus f b s = ContractStatus.SETTLED ↔ s = true) ∧
      (getContractStatus f b s = ContractStatus.SIGNED_BY_BOTH ↔
        s = false ∧ f = true ∧ b = true) ∧
      (getContractStatus f b s = ContractStatus.WAITING_FOR_BUYER ↔
        s = false ∧ f = true ∧ b = false) ∧
      (getContractStatus f b s = ContractStatus.PENDING ↔
        s = false ∧ f = false) := by
  decide

/-- C4: `is_configured` is true exactly when the private key is non-empty,
the contract address is non-empty, the address passes the syntactic
validity check, and the node liveness probe succeeds; equivalently, each of
the four conditions failing independently forces the result false. -/
theorem is_configured_iff (cfg : ServiceConfig) :
    is_configured cfg = true ↔
      cfg.contractAddress ≠ "" ∧ cfg.privateKey ≠ "" ∧
      cfg.isAddressOk = true ∧ cfg.connected = true := by
  unfold is_configured contractHandle
  by_cases ha : cfg.contractAddress = "" <;>
    by_cases hk : cfg.privateKey = "" <;>
      by_cases hv : cfg.isAddressOk = true <;>
        by_cases hc : cfg.connected = true <;>
          simp [ha, hk, hv, hc]

/-- C9: the `farmer_address` argument of `create_contract` and the
`buyer_address` argument of `sign_contract` have no effect: calls differing
only in that argument return identical results and perform identical ledger
I/O (the built call data carries only commodity, quantity, pricePerUnit and
deliveryDate for create, and only contractId for sign — see `CallData`). -/
theorem address_params_unused (cfg : ServiceConfig) (w : World) (c : String)
    (q p d cid : Nat) (fa fb ba bb : String) :
    create_contract cfg w c q p d fa = create_contract cfg w c q p d fb ∧
    sign_contract cfg w cid ba = sign_contract cfg w cid bb :=
  ⟨rfl, rfl⟩

/-- C5: when the configuration gate is false, `create_contract`,
`sign_contract` and `get_contract_details` each fail with their
NotConfigured error having performed no ledger I/O at all (empty operation
trace: no nonce query, gas query, submission, or read-only call), while the
`/blockchain/status` report returns successfully with `configured = false`
and performs no ledger I/O either. -/
theorem notConfigured_gate (cfg : ServiceConfig) (w : World) (c : String)
    (q p d cid : Nat) (fa ba : String) (h : is_configured cfg = false) :
    create_contract cfg w c q p d fa =
      (Except.error (ServiceError.notConfigured
        "Blockchain service not configured. Please set CONTRACT_ADDRESS and PRIVATE_KEY in .env"),
       []) ∧
    sign_contract cfg w cid ba =
      (Except.error (ServiceError.notConfigured "Blockchain service not configured"), []) ∧
    get_contract_details cfg w cid =
      (Except.error (ServiceError.notConfigured "Blockchain service not configured"), []) ∧
    blockchain_status cfg w =
      ({ success := true, configured := false, connected := cfg.connected,
         total_contracts := 0 }, []) := by
  refine ⟨?_, ?_, ?_, ?_⟩ <;>
    simp [create_contract, sign_contract, get_contract_details, blockchain_status,
      get_total_contracts, h]

/-- C5 witness: the out-of-the-box empty configuration takes every
NotConfigured branch with an empty I/O trace. -/
theorem notConfigured_gate_witness :
    is_configured cfgBad = false ∧
    create_contract cfgBad baseWorld "Soybean" 100 5000 1748736000 "0xA" =
      (Except.error (ServiceError.notConfigured
        "Blockchain service not configured. Please set CONTRACT_ADDRESS and PRIVATE_KEY in .env"),
       []) ∧
    sign_contract cfgBad baseWorld 1 "0xB" =
      (Except.error (ServiceError.notConfigured "Blockchain service not configured"), []) ∧
    get_contract_details cfgBad baseWorld 1 =
      (Except.error (ServiceError.notConfigured "Blockchain service not configured"), []) ∧
    blockchain_status cfgBad baseWorld =
      ({ success := true, configured := false, connected := true,
         total_contracts := 0 }, []) := by
  have h : is_configured cfgBad = false := by decide
  have hmain := notConfigured_gate cfgBad baseWorld "Soybean" 100 5000 1748736000 1 "0xA" "0xB" h
  exact ⟨h, hmain.1, hmain.2.1, hmain.2.2.1, hmain.2.2.2⟩

/-- C10: `get_total_contracts` never raises (it is total into `Nat`): it
returns 0 when the service is unconfigured, returns 0 whenever the
underlying `getTotalContracts()` call fails for any reason, and therefore a
failing ledger is indistinguishable at this interface from a configured
service over an empty ledger (also 0). -/
theorem get_total_contracts_never_raises (cfg cfg2 : ServiceConfig) (w w2 : World) :
    (is_configured cfg = false → get_total_contracts cfg w = (0, [])) ∧
    (∀ f, w.totalResult = Except.error f → (get_total_contracts cfg w).fst = 0) ∧
    (∀ f, w.totalResult = Except.error f → w2.totalResult = Except.ok 0 →
      (get_total_contracts cfg w).fst = (get_total_contracts cfg2 w2).fst) := by
  refine ⟨fun h => ?_, fun f hf => ?_, fun f hf h0 => ?_⟩
  · simp [get_total_contracts, h]
  · unfold get_total_contracts
    cases hc : is_configured cfg <;> simp [hf]
  · unfold get_total_contracts
    cases hc : is_configured cfg <;> cases hc2 : is_configured cfg2 <;> simp [hf, h0]

/-- C10 witness: unconfigured service gives 0; a configured service whose
ledger read fails gives 0, equal to a configured service over an empty
ledger. -/
theorem get_total_contracts_never_raises_witness :
    get_total_contracts cfgBad baseWorld = (0, []) ∧
    (get_total_contracts cfgOk
        { baseWorld with totalResult := Except.error (LedgerFailure.unreachable "down") }).fst
      = 0 ∧
    (get_total_contracts cfgOk
        { baseWorld with totalResult := Except.error (LedgerFailure.unreachable "down") }).fst
      = (get_total_contracts cfgOk baseWorld).fst := by
  have h := get_total_contracts_never_raises cfgOk cfgOk
    { baseWorld with totalResult := Except.error (LedgerFailure.unreachable "down") } baseWorld
  have hbad := get_total_contracts_never_raises cfgBad cfgOk baseWorld baseWorld
  exact ⟨hbad.1 (by decide), h.2.1 _ rfl, h.2.2 _ rfl rfl⟩

/-- C7: for every contract tuple the ledger returns, the assembled view's
`total_value` equals `quantity * pricePerUnit` computed exactly in
unbounded integer arithmetic — no truncation or overflow at any magnitude,
in particular for values up to and beyond 10^9 each. -/
theorem total_value_exact (cfg : ServiceConfig) (w : World) (cid : Nat)
    (t : LedgerTuple) (h : is_configured cfg = true)
    (hc : w.callResult cid = Except.ok t) :
    (get_contract_details cfg w cid).fst = Except.ok (viewOfTuple w t) ∧
    (viewOfTuple w t).total_value = t.quantity * t.pricePerUnit := by
  refine ⟨?_, rfl⟩
  simp [get_contract_details, h, hc]

/-- C7 witness: with `quantity = pricePerUnit = 10^9` the view reports
exactly 10^18. -/
theorem total_value_exact_witness :
    (get_contract_details cfgOk wBig 1).fst = Except.ok (viewOfTuple wBig bigTuple) ∧
    (viewOfTuple wBig bigTuple).total_value = 1000000000 * 1000000000 ∧
    (viewOfTuple wBig bigTuple).total_value = 1000000000000000000 := by
  have h := total_value_exact cfgOk wBig 1 bigTuple (by decide) rfl
  exact ⟨h.1, h.2, by decide⟩

/-- C6: whenever the pipeline reaches a receipt, `create_contract` succeeds
with `contract_id` equal to the head of the decoded `ContractCreated`
events — the id of the first matching event when one is present, and `none`
when the receipt has no matching event — while `success`, the transaction
hash, block number and gas used are returned in either case; a missing
event is never an error and no id is fabricated. -/
theorem create_contract_event_decode (cfg : ServiceConfig) (w : World)
    (c : String) (q p d : Nat) (fa txh : String) (r : Receipt)
    (h : is_configured cfg = true) (hk : w.keyFailure = none)
    (hn : w.nonceFailure = none) (hg : w.gasPriceFailure = none)
    (hs : w.sendResultOf (w.signRawOf (createTx w c q p d)) = Except.ok txh)
    (hr : w.receiptOf txh = Except.ok r) :
    create_contract cfg w c q p d fa =
      (Except.ok { success := true, transaction_hash := txh,
                   contract_id := r.contractCreatedEvents.head?,
                   block_number := r.blockNumber, gas_used := r.gasUsed },
       [LedgerOp.getNonce, LedgerOp.getGasPrice, LedgerOp.sendRaw,
        LedgerOp.waitReceipt]) ∧
    (r.contractCreatedEvents = [] → r.contractCreatedEvents.head? = none) ∧
    (∀ i rest, r.contractCreatedEvents = i :: rest →
      r.contractCreatedEvents.head? = some i) := by
  refine ⟨?_, fun he => by simp [he], fun i rest he => by simp [he]⟩
  simp [create_contract, get_transaction_count_latest, createTx, hk, hn, hg, h] at hs ⊢
  simp [hs, hr]

/-- C6 witness: a receipt decoding to events `[1]` yields `contract_id = some 1`;
a receipt with no matching event yields a still-successful result with
`contract_id = none`. -/
theorem create_contract_event_decode_witness :
    create_contract cfgOk baseWorld "Soybean" 100 5000 1748736000 "0xA" =
      (Except.ok { success := true, transaction_hash := "5", contract_id := some 1,
                   block_number := 7, gas_used := 21000 },
       [LedgerOp.getNonce, LedgerOp.getGasPrice, LedgerOp.sendRaw,
        LedgerOp.waitReceipt]) ∧
    create_contract cfgOk wNoEvents "Soybean" 100 5000 1748736000 "0xA" =
      (Except.ok { success := true, transaction_hash := "5", contract_id := none,
                   block_number := 7, gas_used := 21000 },
       [LedgerOp.getNonce, LedgerOp.getGasPrice, LedgerOp.sendRaw,
        LedgerOp.waitReceipt]) := by
  have h1 := create_contract_event_decode cfgOk baseWorld "Soybean" 100 5000 1748736000
    "0xA" "5" okReceipt (by decide) rfl rfl rfl rfl rfl
  have h2 := create_contract_event_decode cfgOk wNoEvents "Soybean" 100 5000 1748736000
    "0xA" "5" emptyReceipt (by decide) rfl rfl rfl rfl rfl
  exact ⟨h1.1, h2.1⟩

/-- C2 counterexample: with a configured service and a ledger whose
`getContract` returns the all-zero sentinel tuple for id 5,
`get_contract_details` does not fail with any error, NotFound included: it
returns a legitimate-looking zero-valued view (id 0, quantity 0,
total_value 0, status PENDING), contradicting the claim that such an id
yields NotFound and never a zero-valued view. -/
theorem sentinel_returns_zero_view_cex :
    (get_contract_details cfgOk wSentinel 5).fst =
      Except.ok (viewOfTuple wSentinel sentinelTuple) ∧
    (viewOfTuple wSentinel sentinelTuple).contract_id = 0 ∧
    (viewOfTuple wSentinel sentinelTuple).quantity = 0 ∧
    (viewOfTuple wSentinel sentinelTuple).total_value = 0 ∧
    (viewOfTuple wSentinel sentinelTuple).status = ContractStatus.PENDING ∧
    ∀ e, (get_contract_details cfgOk wSentinel 5).fst ≠ Except.error e := by
  refine ⟨rfl, rfl, rfl, rfl, rfl, fun e he => ?_⟩
  rw [show (get_contract_details cfgOk wSentinel 5).fst =
        Except.ok (viewOfTuple wSentinel sentinelTuple) from rfl] at he
  simp at he

/-- C2 amended: `get_contract_details` has no NotFound detection at all —
when the ledger call reverts it raises the generic wrapped error
`"Error fetching contract details: " ++ str(e)` (not a distinguished
NotFound), and for any tuple the ledger returns, the sentinel all-zero
tuple included, it assembles and returns the view as if the contract were
legitimate. -/
theorem get_contract_details_behaviour (cfg : ServiceConfig) (w : World)
    (cid : Nat) (h : is_configured cfg = true) :
    (∀ f, w.callResult cid = Except.error f →
      (get_contract_details cfg w cid).fst =
        Except.error (ServiceError.wrapped
          ("Error fetching contract details: " ++ f.message))) ∧
    (∀ t, w.callResult cid = Except.ok t →
      (get_contract_details cfg w cid).fst = Except.ok (viewOfTuple w t)) := by
  refine ⟨fun f hf => ?_, fun t ht => ?_⟩
  · simp [get_contract_details, h, hf]
  · simp [get_contract_details, h, ht]

/-- C2 amended witness: the sentinel tuple is served as a zero-valued view,
and a reverting call surfaces as the generic wrapped error. -/
theorem get_contract_details_behaviour_witness :
    (get_contract_details cfgOk wSentinel 5).fst =
      Except.ok (viewOfTuple wSentinel sentinelTuple) ∧
    (get_contract_details cfgOk wCallRevert 5).fst =
      Except.error (ServiceError.wrapped
        "Error fetching contract details: execution reverted") := by
  have h1 := (get_contract_details_behaviour cfgOk wSentinel 5 (by decide)).2
    sentinelTuple rfl
  have h2 := (get_contract_details_behaviour cfgOk wCallRevert 5 (by decide)).1
    (LedgerFailure.ledgerRevert "execution reverted") rfl
  exact ⟨h1, h2⟩

/-- C3 counterexample: two distinct failure kinds — a ledger revert and a
confirmation timeout carrying the same message text — surface to the caller
of `create_contract` as the very same generic wrapped error, so the error
does not carry enough information to distinguish the kinds. -/
theorem error_kinds_collapsed_cex :
    LedgerFailure.ledgerRevert "execution reverted" ≠
      LedgerFailure.confirmationTimeout "execution reverted" ∧
    (create_contract cfgOk wReceiptRevert "Soybean" 100 5000 1748736000 "0xA").fst =
      (create_contract cfgOk wReceiptTimeout "Soybean" 100 5000 1748736000 "0xA").fst ∧
    (create_contract cfgOk wReceiptRevert "Soybean" 100 5000 1748736000 "0xA").fst =
      Except.error (ServiceError.wrapped "Error creating contract: execution reverted") := by
  exact ⟨by decide, rfl, rfl⟩

/-- C3 amended: no failure is retried internally — every call performs each
ledger I/O operation at most once (its trace is duplicate-free) — and the
NotConfigured guard raises its own distinguishable message, but every
failure caught inside the try block of `create_contract`, `sign_contract`
or `get_contract_details` is collapsed into the single generic wrapped
form `"Error <operation>: " ++ str(e)`: the kind survives only insofar as
the underlying message text happens to differ. -/
theorem no_retry_and_generic_wrapping (cfg : ServiceConfig) (w : World)
    (c : String) (q p d cid : Nat) (fa ba : String) :
    (create_contract cfg w c q p d fa).snd.Nodup ∧
    (sign_contract cfg w cid ba).snd.Nodup ∧
    (get_contract_details cfg w cid).snd.Nodup ∧
    (get_total_contracts cfg w).snd.Nodup ∧
    (∀ e, (create_contract cfg w c q p d fa).fst = Except.error e →
      e = ServiceError.notConfigured
            "Blockchain service not configured. Please set CONTRACT_ADDRESS and PRIVATE_KEY in .env" ∨
      ∃ m, e = ServiceError.wrapped ("Error creating contract: " ++ m)) ∧
    (∀ e, (sign_contract cfg w cid ba).fst = Except.error e →
      e = ServiceError.notConfigured "Blockchain service not configured" ∨
      ∃ m, e = ServiceError.wrapped ("Error signing contract: " ++ m)) ∧
    (∀ e, (get_contract_details cfg w cid).fst = Except.error e →
      e = ServiceError.notConfigured "Blockchain service not configured" ∨
      ∃ m, e = ServiceError.wrapped ("Error fetching contract details: " ++ m)) := by
  refine ⟨?_, ?_, ?_, ?_, ?_, ?_, ?_⟩
  · simp only [create_contract, get_transaction_count_latest]
    repeat' split
    all_goals first | decide | simp
  · simp only [sign_contract, get_transaction_count_latest]
    repeat' split
    all_goals first | decide | simp
  · simp only [get_contract_details]
    repeat' split
    all_goals first | decide | simp
  · simp only [get_total_contracts]
    repeat' split
    all_goals first | decide | simp
  · intro e he
    simp only [create_contract, get_transaction_count_latest] at he
    repeat' split at he
    all_goals simp at he
    all_goals first
      | exact Or.inl he.symm
      | exact Or.inl he
      | exact Or.inr ⟨_, he.symm⟩
  · intro e he
    simp only [sign_contract, get_transaction_count_latest] at he
    repeat' split at he
    all_goals simp at he
    all_goals first
      | exact Or.inl he.symm
      | exact Or.inl he
      | exact Or.inr ⟨_, he.symm⟩
  · intro e he
    simp only [get_contract_details] at he
    repeat' split at he
    all_goals simp at he
    all_goals first
      | exact Or.inl he.symm
      | exact Or.inl he
      | exact Or.inr ⟨_, he.symm⟩

/-- C3 amended witness: a concrete confirmation-timeout failure has a
duplicate-free trace and surfaces in the generic wrapped form. -/
theorem no_retry_and_generic_wrapping_witness :
    (create_contract cfgOk wReceiptTimeout "Soybean" 100 5000 1748736000 "0xA").snd.Nodup ∧
    (ServiceError.wrapped "Error creating contract: execution reverted" =
        ServiceError.notConfigured
          "Blockchain service not configured. Please set CONTRACT_ADDRESS and PRIVATE_KEY in .env" ∨
      ∃ m, ServiceError.wrapped "Error creating contract: execution reverted" =
        ServiceError.wrapped ("Error creating contract: " ++ m)) := by
  have h := no_retry_and_generic_wrapping cfgOk wReceiptTimeout "Soybean" 100 5000
    1748736000 1 "0xA" "0xB"
  exact ⟨h.1, h.2.2.2.2.1 _ rfl⟩

/-- C8 counterexample: the signer oracle of `baseWorld` records the nonce in
the raw bytes and the node echoes them back as the hash, so the returned
`transaction_hash` is the on-wire nonce. A first create call from a node
state with 5 confirmed and 0 pending transactions signs with nonce 5; a
second call made while the first transaction is still in the pending pool
(`wSecond`: 5 confirmed, 1 pending) also signs with nonce 5 — the two rapid
successive calls are assigned the same nonce, because the acquired count
(`"latest"`) ignores the pending transaction that the `"pending"` count
would have reflected. -/
theorem rapid_calls_same_nonce_cex :
    wSecond.pendingTxCount = 1 ∧
    get_transaction_count_latest wSecond = Except.ok 5 ∧
    get_transaction_count_pending wSecond = Except.ok 6 ∧
    (create_contract cfgOk baseWorld "Soybean" 100 5000 1748736000 "0xA").fst =
      Except.ok { success := true, transaction_hash := "5", contract_id := some 1,
                  block_number := 7, gas_used := 21000 } ∧
    (create_contract cfgOk wSecond "Mustard" 50 4000 1751328000 "0xA").fst =
      Except.ok { success := true, transaction_hash := "5", contract_id := some 1,
                  block_number := 7, gas_used := 21000 } :=
  ⟨rfl, rfl, rfl, rfl, rfl⟩

/-- C8 amended: the nonce for both mutating calls is acquired with
`get_transaction_count(address)` and web3's default `"latest"` block, i.e.
from confirmed transactions only; the pending pool is invisible to it, so
the behaviour of `create_contract` and `sign_contract` is unchanged by any
number of pending transactions, and a second rapid call issued while the
first's transaction is pending is assigned the same nonce. -/
theorem nonce_from_confirmed_only (cfg : ServiceConfig) (w : World)
    (c : String) (q p d cid : Nat) (fa ba : String) (n n2 : Nat) :
    get_transaction_count_latest { w with nonceFailure := none } =
      Except.ok w.confirmedTxCount ∧
    get_transaction_count_pending { w with nonceFailure := none, pendingTxCount := n } =
      Except.ok (w.confirmedTxCount + n) ∧
    create_contract cfg { w with pendingTxCount := n } c q p d fa =
      create_contract cfg { w with pendingTxCount := n2 } c q p d fa ∧
    sign_contract cfg { w with pendingTxCount := n } cid ba =
      sign_contract cfg { w with pendingTxCount := n2 } cid ba :=
  ⟨rfl, rfl, rfl, rfl⟩

end Blockchain

